import Mathlib

/-!
Verification of the log-store + uploader pipeline of the Esp32-cam-Codes
repository (components/storage/csv_logger.c and csv_uploader.c).

The C code is shallowly embedded: the fixed-size in-memory arrays
(`s_log_buffer`/`s_log_count`, `s_offline_buffer`/`s_offline_buffer_count`)
become Lean lists, heap pointers to image buffers become `Nat` values
(0 standing for the C null pointer), `free` calls are recorded in an explicit
list of released pointers, and C `int` arithmetic that can overflow is modelled
with explicit two's-complement wrap-around (`toInt32`).  The model is
sequential: every bounded-wait mutex acquisition (`xSemaphoreTake` with a
1000 ms timeout) is taken to succeed, matching the single-producer /
single-delivery-task schedule in which the claims are stated.  Environment
interaction (HTTP transport outcome, wall clock, monotonic clock, `malloc`
success) is passed in explicitly as parameters.
-/

/-- ESP-IDF error codes that appear in the modelled functions. -/
inductive EspErr where
  | espOk
  | espFail
  | errNoMem
  | errTimeout
  | errNotSupported
  | errInvalidState
  deriving DecidableEq, Repr

/-- One face-detection log entry (`face_log_entry_t` in csv_logger.h).
`image_ptr` is the `uintptr_t` pointer to the owned JPEG copy (0 = none). -/
structure FaceLogEntry where
  timestamp : String
  face_id : Int
  face_embedding : List Float
  embedding_size : Int
  location_type : String
  latitude : Float
  longitude : Float
  altitude : Float
  satellites : Int
  device_id : String
  bus_id : String
  route_name : String
  trip_id : String
  trip_date : String
  trip_active : Bool
  image_ptr : Nat
  image_len : Nat
  uptime_us : Nat

/-- GPS fix handed to `csv_logger_log_face` (`csv_gps_data_t`). -/
structure GpsData where
  latitude : Float
  longitude : Float
  altitude : Float
  satellites : Int
  valid : Bool

/-- Logger configuration (`csv_logger_config_t`), the fields read by
`csv_logger_log_face`.  `bus_id`/`route_name` are nullable C strings. -/
structure LoggerConfig where
  device_id : String
  location_type : String
  bus_id : Option String
  route_name : Option String

/-- `MAX_LOG_ENTRIES` in csv_logger.c: capacity of the in-memory log store. -/
def MAX_LOG_ENTRIES : Nat := 5

/-- The placeholder written by `get_current_timestamp` when the wall clock is
not yet synchronized (csv_logger.c line 31). -/
def unsyncedPlaceholder : String := "1970-01-01T00:00:00Z"

/-- The image pointer a removed entry owns, if any: csv_logger.c frees
`image_ptr` only when it is non-null. -/
def imgPtrOpt (e : FaceLogEntry) : Option Nat :=
  if e.image_ptr ≠ 0 then some e.image_ptr else none

/-- The `entry.image_ptr`/`entry.image_len` fields produced by the image-copy
block of `csv_logger_log_face` (csv_logger.c lines 108-124).  `imageGiven`
is whether the caller passed a non-null `image_buf`; `alloc` is the result of
`malloc(image_len)` (`some p` = returned pointer, `none` = allocation failed). -/
def imageFields (imageGiven : Bool) (imageLen : Nat) (alloc : Option Nat) : Nat × Nat :=
  if imageGiven ∧ 0 < imageLen then
    match alloc with
    | some p => (p, imageLen)
    | none => (0, 0)
  else (0, 0)

/-- Construction of the log entry in `csv_logger_log_face`
(csv_logger.c lines 72-124).  `face_embedding` is `some l` when the caller
passed a non-null embedding pointer whose first `embedding_size` floats are
the prefix of `l`. -/
def buildEntry (cfg : LoggerConfig) (ts : String) (face_id : Int)
    (face_embedding : Option (List Float)) (embedding_size : Int)
    (gps : GpsData) (imageGiven : Bool) (imageLen : Nat) (alloc : Option Nat)
    (uptime : Nat) : FaceLogEntry :=
  let (emb, embSize) :=
    match face_embedding with
    | some l =>
        if 0 < embedding_size ∧ embedding_size ≤ 128 then
          (l.take embedding_size.toNat, embedding_size)
        else ([], 0)
    | none => ([], 0)
  let (iptr, ilen) := imageFields imageGiven imageLen alloc
  { timestamp := ts
    face_id := face_id
    face_embedding := emb
    embedding_size := embSize
    location_type := cfg.location_type.take 15
    latitude := if gps.valid then gps.latitude else 0.0
    longitude := if gps.valid then gps.longitude else 0.0
    altitude := if gps.valid then gps.altitude else 0.0
    satellites := if gps.valid then gps.satellites else 0
    device_id := cfg.device_id.take 31
    bus_id := (cfg.bus_id.getD "UNKNOWN").take 31
    route_name := (cfg.route_name.getD "UNKNOWN").take 63
    trip_id := ""
    trip_date := ""
    trip_active := false
    image_ptr := iptr
    image_len := ilen
    uptime_us := uptime }

/-- The circular-buffer insertion block of `csv_logger_log_face`
(csv_logger.c lines 126-140): when the store is full, the index-0 entry's
image buffer is freed (if owned), the remaining entries are shifted down,
and the new entry is stored at the tail.  Returns the new store together with
the list of pointers passed to `free`. -/
def logStoreInsert (store : List FaceLogEntry) (entry : FaceLogEntry) :
    List FaceLogEntry × List Nat :=
  if MAX_LOG_ENTRIES ≤ store.length then
    let freed :=
      match store with
      | [] => []
      | e0 :: _ => if e0.image_ptr ≠ 0 then [e0.image_ptr] else []
    (store.drop 1 ++ [entry], freed)
  else
    (store ++ [entry], [])

/-- `csv_logger_log_face` (csv_logger.c lines 64-152) under the sequential
model (logger initialized, mutex acquired): builds the entry, inserts it into
the store, and returns `ESP_OK` unconditionally.  Result components: new
store, freed pointers, return code. -/
def csv_logger_log_face (store : List FaceLogEntry) (cfg : LoggerConfig)
    (ts : String) (face_id : Int) (face_embedding : Option (List Float))
    (embedding_size : Int) (gps : GpsData) (imageGiven : Bool) (imageLen : Nat)
    (alloc : Option Nat) (uptime : Nat) :
    List FaceLogEntry × List Nat × EspErr :=
  let entry := buildEntry cfg ts face_id face_embedding embedding_size gps
    imageGiven imageLen alloc uptime
  let (store', freed) := logStoreInsert store entry
  (store', freed, EspErr.espOk)

/-- `csv_logger_read_pending_logs` (csv_logger.c lines 159-175) under the
sequential model: copies `min(s_log_count, max_count)` entries from the front
of the store into the caller's array, sets `*actual_count`, and leaves the
store untouched.  Result components: store after the call, copied entries,
actual count. -/
def csv_logger_read_pending_logs (store : List FaceLogEntry) (maxCount : Nat) :
    List FaceLogEntry × List FaceLogEntry × Nat :=
  let count := if store.length < maxCount then store.length else maxCount
  (store, store.take count, count)

/-- `csv_logger_mark_uploaded` (csv_logger.c lines 177-211) under the
sequential model: frees the image buffers of the removed entries and shifts
the remaining entries to the front.  Returns the new store and the list of
pointers passed to `free`. -/
def csv_logger_mark_uploaded (store : List FaceLogEntry) (count : Nat) :
    List FaceLogEntry × List Nat :=
  if store.length ≤ count then
    ([], store.filterMap imgPtrOpt)
  else
    (store.drop count, (store.take count).filterMap imgPtrOpt)

/-- Two-digit zero padding used by the `strftime` model. -/
def pad2 (n : Nat) : String :=
  if n < 10 then "0" ++ toString n else toString n

/-- Four-digit zero padding for the year. -/
def pad4 (n : Nat) : String :=
  if n < 10 then "000" ++ toString n
  else if n < 100 then "00" ++ toString n
  else if n < 1000 then "0" ++ toString n
  else toString n

/-- Proleptic-Gregorian civil date from a day count relative to 1970-01-01
(the conversion `gmtime_r` performs on the day part of a `time_t`). -/
def civilFromDays (z0 : Int) : Int × Nat × Nat :=
  let z := z0 + 719468
  let era := z.ediv 146097
  let doe := (z.emod 146097).toNat
  let yoe := (doe - doe / 1460 + doe / 36524 - doe / 146096) / 365
  let doy := doe - (365 * yoe + yoe / 4 - yoe / 100)
  let mp := (5 * doy + 2) / 153
  let d := doy - (153 * mp + 2) / 5 + 1
  let m := if mp < 10 then mp + 3 else mp - 9
  ((yoe : Int) + era * 400 + (if m ≤ 2 then 1 else 0), m, d)

/-- Body of the ISO-8601 timestamp: `gmtime_r` followed by
`strftime("%Y-%m-%dT%H:%M:%S")` (csv_uploader.c lines 150-152). -/
def isoCore (sec : Int) : String :=
  let days := sec.ediv 86400
  let sod := (sec.emod 86400).toNat
  let c := civilFromDays days
  pad4 c.1.toNat ++ "-" ++ pad2 c.2.1 ++ "-" ++ pad2 c.2.2 ++ "T" ++
    pad2 (sod / 3600) ++ ":" ++ pad2 (sod % 3600 / 60) ++ ":" ++ pad2 (sod % 60)

/-- Full repaired timestamp: `strftime` body with the `"Z"` suffix appended by
`strcat` (csv_uploader.c line 153). -/
def formatTimestampUTC (sec : Int) : String :=
  isoCore sec ++ "Z"

/-- The check `now_sec > 1704067200` (2024-01-01 cutoff, csv_uploader.c
line 141). -/
def system_time_synced (now_sec : Int) : Bool :=
  1704067200 < now_sec

/-- `strncmp(s, p, strlen(p)) == 0`: the first `strlen(p)` characters of `s`
equal `p` (character-wise comparison; identical to the C byte-wise comparison
for the ASCII literals involved). -/
def strncmpEq (s p : String) : Bool :=
  s.data.take p.data.length == p.data

/-- The placeholder test of the repair loop:
`strncmp(ts, "1970", 4) == 0 || strncmp(ts, "2025-12-01", 10) == 0`
(csv_uploader.c line 145). -/
def timestampNeedsRepair (ts : String) : Bool :=
  strncmpEq ts "1970" || strncmpEq ts "2025-12-01"

/-- The per-entry time-repair transform of `upload_logs_to_server`
(csv_uploader.c lines 143-157): when the wall clock is synchronized and the
entry carries a placeholder timestamp, the timestamp is rewritten in place to
`now_sec - (now_uptime - uptime_us) / 1000000` formatted as ISO-8601 UTC;
the division is C `int64_t` division (truncation toward zero). -/
def repairEntry (now_sec now_uptime : Int) (e : FaceLogEntry) : FaceLogEntry :=
  if system_time_synced now_sec && timestampNeedsRepair e.timestamp then
    let diff_us : Int := now_uptime - (e.uptime_us : Int)
    { e with timestamp := formatTimestampUTC (now_sec - diff_us.tdiv 1000000) }
  else e

/-- Uploader configuration (`csv_uploader_config_t`), the fields the modelled
functions read. -/
structure UploaderConfig where
  max_retries : Nat
  retry_backoff_base_ms : Int
  max_retry_delay_ms : Int
  offline_buffer_size : Nat
  enable_offline_buffering : Bool
  upload_interval_seconds : Nat

/-- `csv_uploader_status_t` as maintained by `update_status_error` /
`update_status_success` / `add_to_offline_buffer`. -/
structure UploaderStatus where
  is_online : Bool
  successful_uploads : Nat
  failed_uploads : Nat
  consecutive_failures : Nat
  last_error : String
  last_successful_upload_time : Nat
  offline_buffer_count : Nat

/-- The zero-initialized status produced by `csv_uploader_init`
(csv_uploader.c lines 451-452). -/
def initialStatus : UploaderStatus :=
  { is_online := false, successful_uploads := 0, failed_uploads := 0,
    consecutive_failures := 0, last_error := "",
    last_successful_upload_time := 0, offline_buffer_count := 0 }

/-- `update_status_error` (csv_uploader.c lines 45-54): marks offline, bumps
the failure counters and stores the message, truncated by `strncpy` to the
127 characters that fit `last_error[128]`. -/
def update_status_error (st : UploaderStatus) (msg : String) : UploaderStatus :=
  { st with is_online := false,
            failed_uploads := st.failed_uploads + 1,
            consecutive_failures := st.consecutive_failures + 1,
            last_error := msg.take 127 }

/-- `update_status_success` (csv_uploader.c lines 57-66). -/
def update_status_success (st : UploaderStatus) (count : Nat) (now_us : Nat) :
    UploaderStatus :=
  { st with is_online := true,
            successful_uploads := st.successful_uploads + count,
            consecutive_failures := 0,
            last_successful_upload_time := now_us,
            last_error := "" }

/-- 32-bit two's-complement wrap-around for C `int` arithmetic. -/
def toInt32 (x : Int) : Int :=
  (x + 2147483648) % 4294967296 - 2147483648

/-- `calculate_backoff_delay` (csv_uploader.c lines 32-42):
`int delay = base * (1 << attempt); if (delay > cap) delay = cap;`
with both the shift and the multiplication performed in 32-bit `int`. -/
def calculate_backoff_delay (base cap : Int) (attempt : Nat) : Int :=
  let delay := toInt32 (base * toInt32 (2 ^ attempt))
  if cap < delay then cap else delay

/-- Outcome of one `upload_logs_to_server` transport interaction, by which of
the function's exit paths is taken:
* `ok now_us` — HTTP 200 (`update_status_success` runs, `now_us` is the
  `esp_timer_get_time()` it records);
* `failRecorded msg` — a failure path that calls `update_status_error msg`
  (WiFi not connected, no IP address, `esp_http_client_open` failure, or a
  non-200 status);
* `failSilent` — a failure path that returns without touching the status
  (JSON print failure, HTTP-client init failure, write failure). -/
inductive AttemptOutcome where
  | ok (now_us : Nat)
  | failRecorded (msg : String)
  | failSilent

/-- Whether the outcome is the HTTP-200 success path. -/
def AttemptOutcome.isOk : AttemptOutcome → Bool
  | .ok _ => true
  | _ => false

/-- The environment of one delivery attempt: the wall clock read by
`time(&now_sec)`, the monotonic clock read by `esp_timer_get_time()`
(both read at the top of `upload_logs_to_server` for the repair pass), and
the transport outcome. -/
structure AttemptEnv where
  now_sec : Int
  now_uptime : Int
  outcome : AttemptOutcome

/-- Apply the in-place repair pass to the array handed to
`upload_logs_to_server` (csv_uploader.c lines 143-157). -/
def repairBatch (env : AttemptEnv) (logs : List FaceLogEntry) :
    List FaceLogEntry :=
  logs.map (repairEntry env.now_sec env.now_uptime)

/-- `upload_logs_to_server` (csv_uploader.c lines 119-334): returns
immediately on an empty batch, otherwise rewrites placeholder timestamps in
place in the caller's array, performs the transport interaction, and updates
the status register according to the exit path.  Result components: the
array after the call (repair mutates it), the status after the call, and
whether the function returned `ESP_OK`. -/
def upload_logs_to_server (env : AttemptEnv) (logs : List FaceLogEntry)
    (status : UploaderStatus) :
    List FaceLogEntry × UploaderStatus × Bool :=
  if logs.length = 0 then (logs, status, true)
  else
    let logs' := repairBatch env logs
    match env.outcome with
    | .ok now_us => (logs', update_status_success status logs'.length now_us, true)
    | .failRecorded msg => (logs', update_status_error status msg, false)
    | .failSilent => (logs', status, false)

/-- `add_to_offline_buffer` (csv_uploader.c lines 69-96) under the sequential
model: when offline buffering is enabled, appends
`to_add = min(count, space)` of the given entries at the tail of the offline
buffer and mirrors the new occupancy into the status register when anything
was added.  Result components: new offline buffer, new status, return code,
and the `to_add` value the function computes and reports in its log lines. -/
def add_to_offline_buffer (cfg : UploaderConfig)
    (offline : List FaceLogEntry) (status : UploaderStatus)
    (logs : List FaceLogEntry) (count : Nat) :
    List FaceLogEntry × UploaderStatus × EspErr × Nat :=
  if !cfg.enable_offline_buffering then
    (offline, status, EspErr.errNotSupported, 0)
  else
    let space := cfg.offline_buffer_size - offline.length
    let toAdd := if space < count then space else count
    if 0 < toAdd then
      let offline' := offline ++ logs.take toAdd
      (offline', { status with offline_buffer_count := offline'.length },
       EspErr.espOk, toAdd)
    else
      (offline, status, EspErr.errNoMem, toAdd)

/-- `upload_offline_buffer` (csv_uploader.c lines 99-117): trivial success
when disabled or empty; otherwise one `upload_logs_to_server` call on the
whole buffer (which repairs timestamps in place in the buffer itself),
clearing the buffer only on success.  Result components: new offline buffer,
new status, whether `ESP_OK` was returned, and the list of batches handed to
the delivery function (one per invocation). -/
def upload_offline_buffer (cfg : UploaderConfig) (env : AttemptEnv)
    (offline : List FaceLogEntry) (status : UploaderStatus) :
    List FaceLogEntry × UploaderStatus × Bool × List (List FaceLogEntry) :=
  if !cfg.enable_offline_buffering || offline.length = 0 then
    (offline, status, true, [])
  else
    let r := upload_logs_to_server env offline status
    if r.2.2 then
      ([], { r.2.1 with offline_buffer_count := 0 }, true, [r.1])
    else
      (r.1, r.2.1, false, [r.1])

/-- The mutable state shared by the logger and the upload task: the log
store, the offline buffer, and the status register. -/
structure SysState where
  logStore : List FaceLogEntry
  offline : List FaceLogEntry
  status : UploaderStatus

/-- The retry-exhaustion block of `upload_task` (csv_uploader.c lines
394-406): when offline buffering is enabled, the (repaired) batch is admitted
to the offline buffer and the snapshotted entries are removed from the log
store; in either case `update_status_error` records the final message.  With
offline buffering disabled the log store is left untouched. -/
def finalFailure (cfg : UploaderConfig) (batch : List FaceLogEntry)
    (st : SysState) : SysState :=
  let st1 :=
    if cfg.enable_offline_buffering then
      let r := add_to_offline_buffer cfg st.offline st.status batch batch.length
      { logStore := (csv_logger_mark_uploaded st.logStore batch.length).1,
        offline := r.1, status := r.2.1 }
    else st
  { st1 with status := (update_status_error st1.status
      ("Upload failed after " ++ toString cfg.max_retries ++ " retries")) }

/-- The retry loop of `upload_task` (csv_uploader.c lines 378-408), with the
task's `s_running` flag held true throughout (the production loop is never
stopped).  `remaining` is `max_retries - retry_count`; each iteration
consumes one attempt environment.  On success the batch is released from the
log store; when the last attempt fails the retry-exhaustion block runs.  The
local `logs` array accumulates the in-place timestamp repairs across
attempts. -/
def runAttempts (cfg : UploaderConfig) :
    Nat → List AttemptEnv → List FaceLogEntry → SysState → SysState
  | 0, _, _, st => st
  | _ + 1, [], _, st => st
  | remaining + 1, env :: rest, batch, st =>
    let r := upload_logs_to_server env batch st.status
    if r.2.2 then
      { st with status := r.2.1,
                logStore := (csv_logger_mark_uploaded st.logStore batch.length).1 }
    else if remaining = 0 then
      finalFailure cfg r.1 { st with status := r.2.1 }
    else
      runAttempts cfg remaining rest r.1 { st with status := r.2.1 }

/-- One iteration of the `upload_task` loop body after the trigger/timeout
wait (csv_uploader.c lines 353-408): skip when nothing is pending, snapshot
up to 5 entries, best-effort offline-buffer flush, then the bounded retry
loop.  `oenv` is the environment of the offline-flush delivery attempt and
`envs` the environments of the primary delivery attempts. -/
def upload_task_cycle (cfg : UploaderConfig) (oenv : AttemptEnv)
    (envs : List AttemptEnv) (st : SysState) : SysState :=
  if st.logStore.length = 0 then st
  else
    let r := csv_logger_read_pending_logs st.logStore 5
    let batch := r.2.1
    if r.2.2 = 0 then st
    else
      let f := upload_offline_buffer cfg oenv st.offline st.status
      runAttempts cfg cfg.max_retries envs batch
        { st with offline := f.1, status := f.2.1 }

/-- Cumulative effect on the local `logs` array of the in-place repair passes
of a sequence of delivery attempts, oldest attempt first. -/
def foldRepair (envs : List AttemptEnv) (batch : List FaceLogEntry) :
    List FaceLogEntry :=
  envs.foldl (fun b e => repairBatch e b) batch

/-- Effect of one failed delivery attempt on the status register: recorded
failure paths run `update_status_error`, silent failure paths leave the
status unchanged. -/
def stepFailStatus (env : AttemptEnv) (s : UploaderStatus) : UploaderStatus :=
  match env.outcome with
  | .failRecorded m => update_status_error s m
  | _ => s

/-- Cumulative effect on the status register of the per-attempt failure
recordings of a sequence of failed delivery attempts. -/
def foldFailStatus (envs : List AttemptEnv) (s : UploaderStatus) :
    UploaderStatus :=
  envs.foldl (fun acc e => stepFailStatus e acc) s

/-- Entry template for the concrete test states (embedding-only mode entry
with a given timestamp, face id, image pointer/length and capture uptime). -/
def mkEntry (ts : String) (fid : Int) (ptr len up : Nat) : FaceLogEntry :=
  { timestamp := ts, face_id := fid, face_embedding := [], embedding_size := 0,
    location_type := "ENTRY", latitude := 0.0, longitude := 0.0, altitude := 0.0,
    satellites := 0, device_id := "DEV", bus_id := "BUS", route_name := "R",
    trip_id := "", trip_date := "", trip_active := false,
    image_ptr := ptr, image_len := len, uptime_us := up }

/-- A synced-timestamp entry without an image. -/
def entryA : FaceLogEntry := mkEntry "2025-06-01T00:00:00Z" 1 0 0 0

/-- A second synced-timestamp entry without an image. -/
def entryB : FaceLogEntry := mkEntry "2025-06-01T00:00:05Z" 2 0 0 0

/-- An entry captured before clock sync: placeholder timestamp, capture
uptime 100,000,000 µs. -/
def entryP : FaceLogEntry := mkEntry "1970-01-01T00:00:00Z" 3 0 0 100000000

/-- A full 5-entry log store whose oldest entry owns image buffer 1000. -/
def fullStore : List FaceLogEntry :=
  [mkEntry "2025-06-01T00:00:00Z" 1 1000 64 0,
   mkEntry "2025-06-01T00:00:01Z" 2 0 0 0,
   mkEntry "2025-06-01T00:00:02Z" 3 0 0 0,
   mkEntry "2025-06-01T00:00:03Z" 4 0 0 0,
   mkEntry "2025-06-01T00:00:04Z" 5 0 0 0]

/-- A two-entry store whose entries own image buffers 100 and 200. -/
def twoImgStore : List FaceLogEntry :=
  [mkEntry "2025-06-01T00:00:00Z" 1 100 10 0,
   mkEntry "2025-06-01T00:00:01Z" 2 200 20 0]

/-- Scenario-C uploader configuration: `max_retries = 3`, offline buffering
enabled with capacity 50, default backoff parameters. -/
def cfgC : UploaderConfig :=
  { max_retries := 3, retry_backoff_base_ms := 1000, max_retry_delay_ms := 30000,
    offline_buffer_size := 50, enable_offline_buffering := true,
    upload_interval_seconds := 300 }

/-- The same configuration with offline buffering disabled. -/
def cfgDis : UploaderConfig := { cfgC with enable_offline_buffering := false }

/-- A delivery attempt that fails with a recorded server error, wall clock
not yet synchronized. -/
def envFail : AttemptEnv :=
  { now_sec := 0, now_uptime := 0, outcome := .failRecorded "Server error: HTTP 500" }

/-- A delivery attempt that fails with a recorded server error while the wall
clock is synchronized at 1735689600 s and uptime is 150,000,000 µs. -/
def envSync : AttemptEnv :=
  { now_sec := 1735689600, now_uptime := 150000000,
    outcome := .failRecorded "Server error: HTTP 500" }

/-- Scenario-C initial state: two pending entries, empty offline buffer,
zeroed status register. -/
def stC : SysState :=
  { logStore := [entryA, entryB], offline := [], status := initialStatus }

/-- A one-entry initial state with empty offline buffer and zeroed status. -/
def stD : SysState :=
  { logStore := [entryA], offline := [], status := initialStatus }

/-- Both branches of `csv_logger_mark_uploaded` leave exactly the entries
past the first `count` in the store, in order. -/
theorem mark_uploaded_fst (store : List FaceLogEntry) (count : Nat) :
    (csv_logger_mark_uploaded store count).1 = store.drop count := by
  unfold csv_logger_mark_uploaded
  split
  · next h => exact (List.drop_of_length_le h).symm
  · rfl

/-- Both branches of `csv_logger_mark_uploaded` free exactly the owned image
buffers of the first `count` entries. -/
theorem mark_uploaded_snd (store : List FaceLogEntry) (count : Nat) :
    (csv_logger_mark_uploaded store count).2
      = (store.take count).filterMap imgPtrOpt := by
  unfold csv_logger_mark_uploaded
  split
  · next h => rw [List.take_of_length_le h]
  · rfl

/-- `toInt32` is the identity on the representable range of a 32-bit `int`. -/
theorem toInt32_eq_self {x : Int} (h1 : -2147483648 ≤ x)
    (h2 : x < 2147483648) : toInt32 x = x := by
  unfold toInt32
  rw [Int.emod_eq_of_lt (by omega) (by omega)]
  omega

/-- The final capping branch of the backoff computation is a `min`. -/
theorem if_cap_eq_min (cap d : Int) : (if cap < d then cap else d) = min d cap := by
  rw [Int.min_def]
  split <;> split <;> omega

/-- On inputs whose exact delay fits a 32-bit `int`, the backoff computation
produces exactly `min (base * 2 ^ attempt) cap`. -/
theorem backoff_eq_min (base cap : Int) (n : Nat) (hb : 0 ≤ base)
    (hov : base * 2 ^ n < 2147483648) :
    calculate_backoff_delay base cap n = min (base * 2 ^ n) cap := by
  rcases eq_or_lt_of_le hb with hz | hpos
  · have hz' : base = 0 := hz.symm
    subst hz'
    have h0 : toInt32 (0 * toInt32 (2 ^ n)) = 0 := by
      rw [Int.zero_mul]; decide
    show (if cap < toInt32 (0 * toInt32 (2 ^ n)) then cap
          else toInt32 (0 * toInt32 (2 ^ n))) = min (0 * 2 ^ n) cap
    rw [h0, Int.zero_mul]
    exact if_cap_eq_min cap 0
  · have hpow0 : (0:Int) < 2 ^ n := by positivity
    have hple : (2:Int) ^ n ≤ base * 2 ^ n := by
      nlinarith
    have hsh : toInt32 (2 ^ n) = 2 ^ n :=
      toInt32_eq_self (by omega) (by omega)
    have hmul : toInt32 (base * toInt32 (2 ^ n)) = base * 2 ^ n := by
      rw [hsh]
      exact toInt32_eq_self (by nlinarith) hov
    show (if cap < toInt32 (base * toInt32 (2 ^ n)) then cap
          else toInt32 (base * toInt32 (2 ^ n))) = min (base * 2 ^ n) cap
    rw [hmul]
    exact if_cap_eq_min cap _

/-- The insertion block never grows the store past its capacity. -/
theorem logStoreInsert_length_le (store : List FaceLogEntry)
    (entry : FaceLogEntry) (h : store.length ≤ MAX_LOG_ENTRIES) :
    (logStoreInsert store entry).1.length ≤ MAX_LOG_ENTRIES := by
  unfold logStoreInsert MAX_LOG_ENTRIES at *
  split
  · next hfull =>
    show (store.drop 1 ++ [entry]).length ≤ 5
    simp only [List.length_append, List.length_drop, List.length_singleton]
    omega
  · next hfull =>
    show (store ++ [entry]).length ≤ 5
    simp only [List.length_append, List.length_singleton]
    omega

/-- Claim C7: `csv_logger_read_pending_logs` copies exactly
`min(count, max)` entries — the oldest entries of the log store, in capture
order starting from the front — reports that number as the actual count, and
leaves the store's contents and occupancy unchanged. -/
theorem c7_snapshot_oldest_in_order (store : List FaceLogEntry) (maxCount : Nat) :
    (csv_logger_read_pending_logs store maxCount).1 = store ∧
    (csv_logger_read_pending_logs store maxCount).2.2 = min store.length maxCount ∧
    (csv_logger_read_pending_logs store maxCount).2.1 = store.take maxCount ∧
    (csv_logger_read_pending_logs store maxCount).2.1.length
      = min store.length maxCount ∧
    ∃ rest, (csv_logger_read_pending_logs store maxCount).2.1 ++ rest = store := by
  have hcnt : (if store.length < maxCount then store.length else maxCount)
      = min store.length maxCount := by
    split <;> omega
  have htake : store.take (min store.length maxCount) = store.take maxCount := by
    by_cases h : store.length ≤ maxCount
    · rw [min_eq_left h, List.take_length, List.take_of_length_le h]
    · rw [min_eq_right (by omega)]
  refine ⟨rfl, ?_, ?_, ?_, ?_⟩
  · show (if store.length < maxCount then store.length else maxCount) = _
    exact hcnt
  · show store.take (if store.length < maxCount then store.length else maxCount)
        = _
    rw [hcnt, htake]
  · show (store.take
        (if store.length < maxCount then store.length else maxCount)).length = _
    rw [hcnt, htake, List.length_take]
    omega
  · exact ⟨store.drop (if store.length < maxCount then store.length else maxCount),
      List.take_append_drop _ _⟩

/-- Claim C8 (counterexample): with the default base delay 1000 ms and cap
30000 ms, attempt 22 overflows the 32-bit `int` computation
`base * (1 << attempt)`: the computed delay is the wrapped negative value
-100663296, not `min(base * 2^22, cap) = 30000`, and the delay is not
non-decreasing (it drops below the attempt-5 delay). -/
theorem c8_counterexample :
    calculate_backoff_delay 1000 30000 22 ≠ min (1000 * 2 ^ 22) 30000 ∧
    calculate_backoff_delay 1000 30000 22 < calculate_backoff_delay 1000 30000 5 ∧
    calculate_backoff_delay 1000 30000 22 = -100663296 := by
  refine ⟨by decide, by decide, by decide⟩

/-- Claim C8 (amended): for every attempt `a ≥ 0` such that
`base * 2 ^ a` still fits a signed 32-bit `int` (no overflow), the retry
backoff delay equals `min (base * 2 ^ a) cap`; restricted to that
overflow-free range it is non-decreasing in the attempt number and never
exceeds `cap`. -/
theorem c8_backoff_min_monotone_bounded (base cap : Int) (a b : Nat)
    (hb : 0 ≤ base) (hab : a ≤ b) (hov : base * 2 ^ b < 2147483648) :
    calculate_backoff_delay base cap b = min (base * 2 ^ b) cap ∧
    calculate_backoff_delay base cap a ≤ calculate_backoff_delay base cap b ∧
    calculate_backoff_delay base cap b ≤ cap := by
  have hpow : (2:Int) ^ a ≤ 2 ^ b := pow_le_pow_right₀ (by norm_num) hab
  have hmul : base * 2 ^ a ≤ base * 2 ^ b := mul_le_mul_of_nonneg_left hpow hb
  have hova : base * 2 ^ a < 2147483648 := lt_of_le_of_lt hmul hov
  have ha := backoff_eq_min base cap a hb hova
  have hbb := backoff_eq_min base cap b hb hov
  refine ⟨hbb, ?_, ?_⟩
  · rw [ha, hbb]
    exact min_le_min hmul (le_refl cap)
  · rw [hbb]
    exact min_le_right _ _

/-- Claim C8 witness: concrete overflow-free attempts 2 and 5 with the
default configuration. -/
theorem c8_backoff_witness :
    calculate_backoff_delay 1000 30000 5 = min (1000 * 2 ^ 5) 30000 ∧
    calculate_backoff_delay 1000 30000 2 ≤ calculate_backoff_delay 1000 30000 5 ∧
    calculate_backoff_delay 1000 30000 5 ≤ 30000 :=
  c8_backoff_min_monotone_bounded 1000 30000 2 5 (by norm_num) (by norm_num)
    (by norm_num)

/-- Claim C10: when the `malloc` for the image copy fails during
`csv_logger_log_face`, the event record is still admitted at the tail of the
log store with no image attached (`image_ptr = 0`, `image_len = 0`) and the
call still returns `ESP_OK`. -/
theorem c10_image_alloc_failure_still_logged (store : List FaceLogEntry)
    (cfg : LoggerConfig) (ts : String) (fid : Int)
    (emb : Option (List Float)) (esz : Int) (gps : GpsData)
    (imageLen : Nat) (uptime : Nat) (h : 0 < imageLen) :
    (csv_logger_log_face store cfg ts fid emb esz gps true imageLen none
        uptime).2.2 = EspErr.espOk ∧
    (csv_logger_log_face store cfg ts fid emb esz gps true imageLen none
        uptime).1.getLast?
      = some (buildEntry cfg ts fid emb esz gps true imageLen none uptime) ∧
    (buildEntry cfg ts fid emb esz gps true imageLen none uptime).image_ptr
      = 0 ∧
    (buildEntry cfg ts fid emb esz gps true imageLen none uptime).image_len
      = 0 := by
  have himg : imageFields true imageLen none = (0, 0) := by
    unfold imageFields
    rw [if_pos ⟨rfl, h⟩]
  refine ⟨rfl, ?_, ?_, ?_⟩
  · show (logStoreInsert store _).1.getLast? = _
    unfold logStoreInsert
    split
    · exact List.getLast?_concat _
    · exact List.getLast?_concat _
  · unfold buildEntry
    rw [himg]
  · unfold buildEntry
    rw [himg]

/-- Claim C10 witness: a one-entry store, a 64-byte image whose copy
allocation fails. -/
theorem c10_witness :
    (csv_logger_log_face [entryA]
        { device_id := "DEV", location_type := "ENTRY",
          bus_id := some "BUS", route_name := some "R" }
        "2025-06-01T00:00:10Z" 7 none 0
        { latitude := 0.0, longitude := 0.0, altitude := 0.0,
          satellites := 0, valid := false }
        true 64 none 12345).2.2 = EspErr.espOk ∧
    (buildEntry
        { device_id := "DEV", location_type := "ENTRY",
          bus_id := some "BUS", route_name := some "R" }
        "2025-06-01T00:00:10Z" 7 none 0
        { latitude := 0.0, longitude := 0.0, altitude := 0.0,
          satellites := 0, valid := false }
        true 64 none 12345).image_ptr = 0 := by
  have h := c10_image_alloc_failure_still_logged [entryA]
    { device_id := "DEV", location_type := "ENTRY",
      bus_id := some "BUS", route_name := some "R" }
    "2025-06-01T00:00:10Z" 7 none 0
    { latitude := 0.0, longitude := 0.0, altitude := 0.0,
      satellites := 0, valid := false }
    64 12345 (by norm_num)
  exact ⟨h.1, h.2.2.1⟩

/-- Claim C2: appends never push the log store past its capacity of 5; an
append into a full store evicts the index-0 entry (freeing its owned image
buffer), shifts the remaining entries down and inserts the new entry at the
tail, and an append into a non-full store simply appends at the tail — so
the store always holds the most recent entries in capture order. -/
theorem c2_log_store_bounded_fifo (store : List FaceLogEntry)
    (entry : FaceLogEntry) (hinv : store.length ≤ MAX_LOG_ENTRIES) :
    (logStoreInsert store entry).1.length ≤ MAX_LOG_ENTRIES ∧
    (store.length < MAX_LOG_ENTRIES →
        logStoreInsert store entry = (store ++ [entry], [])) ∧
    (store.length = MAX_LOG_ENTRIES →
        ∃ e0 rest, store = e0 :: rest ∧
          (logStoreInsert store entry).1 = rest ++ [entry] ∧
          (logStoreInsert store entry).2
            = (if e0.image_ptr ≠ 0 then [e0.image_ptr] else [])) ∧
    (∀ es : List FaceLogEntry,
        (es.foldl (fun s e => (logStoreInsert s e).1) store).length
          ≤ MAX_LOG_ENTRIES) := by
  refine ⟨logStoreInsert_length_le store entry hinv, ?_, ?_, ?_⟩
  · intro hlt
    unfold logStoreInsert
    rw [if_neg (by omega)]
  · intro heq
    match store, heq with
    | e0 :: rest, heq =>
      have hcond : MAX_LOG_ENTRIES ≤ (e0 :: rest).length := le_of_eq heq.symm
      have hins : logStoreInsert (e0 :: rest) entry
          = (rest ++ [entry],
             if e0.image_ptr ≠ 0 then [e0.image_ptr] else []) := by
        unfold logStoreInsert
        rw [if_pos hcond]
        rfl
      exact ⟨e0, rest, rfl, by rw [hins], by rw [hins]⟩
  · intro es
    induction es generalizing store with
    | nil => exact hinv
    | cons e es ih =>
      exact ih _ (logStoreInsert_length_le store e hinv)

/-- Claim C2 witness: appending into the concrete full 5-entry store. -/
theorem c2_witness :
    (logStoreInsert fullStore entryB).1.length ≤ MAX_LOG_ENTRIES ∧
    (∃ e0 rest, fullStore = e0 :: rest ∧
        (logStoreInsert fullStore entryB).1 = rest ++ [entryB] ∧
        (logStoreInsert fullStore entryB).2
          = (if e0.image_ptr ≠ 0 then [e0.image_ptr] else [])) := by
  have h := c2_log_store_bounded_fifo fullStore entryB (by decide)
  exact ⟨h.1, h.2.2.1 (by decide)⟩

/-- Claim C4: `csv_logger_mark_uploaded n` removes exactly the first `n`
entries, frees each removed entry's owned image buffer exactly once (no
double free, no freeing of a retained entry's buffer, given that live image
pointers are distinct), compacts the remaining entries to the front in
order, and empties the store (freeing all owned buffers) when `n ≥ count`. -/
theorem c4_release_front (store : List FaceLogEntry) (n : Nat)
    (hnd : (store.filterMap imgPtrOpt).Nodup) :
    (csv_logger_mark_uploaded store n).1 = store.drop n ∧
    (csv_logger_mark_uploaded store n).2
      = (store.take n).filterMap imgPtrOpt ∧
    (csv_logger_mark_uploaded store n).2.Nodup ∧
    (∀ p ∈ (csv_logger_mark_uploaded store n).2,
        p ∉ (csv_logger_mark_uploaded store n).1.filterMap imgPtrOpt) ∧
    (store.length ≤ n →
        (csv_logger_mark_uploaded store n).1 = [] ∧
        (csv_logger_mark_uploaded store n).2 = store.filterMap imgPtrOpt) := by
  have hfst := mark_uploaded_fst store n
  have hsnd := mark_uploaded_snd store n
  have hsplit : store.take n ++ store.drop n = store := List.take_append_drop n store
  have hnd' : ((store.take n).filterMap imgPtrOpt
      ++ (store.drop n).filterMap imgPtrOpt).Nodup := by
    rw [← List.filterMap_append, hsplit]
    exact hnd
  rcases List.nodup_append.mp hnd' with ⟨h1, h2, hdisj⟩
  refine ⟨hfst, hsnd, ?_, ?_, ?_⟩
  · rw [hsnd]; exact h1
  · intro p hp
    rw [hsnd] at hp
    rw [hfst]
    exact hdisj hp
  · intro hle
    refine ⟨?_, ?_⟩
    · rw [hfst]; exact List.drop_of_length_le hle
    · rw [hsnd, List.take_of_length_le hle]

/-- Claim C4 witness: releasing the front entry of the concrete two-image
store frees exactly pointer 100 and keeps the entry owning pointer 200. -/
theorem c4_witness :
    (csv_logger_mark_uploaded twoImgStore 1).1 = twoImgStore.drop 1 ∧
    (csv_logger_mark_uploaded twoImgStore 1).2
      = (twoImgStore.take 1).filterMap imgPtrOpt ∧
    (csv_logger_mark_uploaded twoImgStore 1).2.Nodup ∧
    (∀ p ∈ (csv_logger_mark_uploaded twoImgStore 1).2,
        p ∉ (csv_logger_mark_uploaded twoImgStore 1).1.filterMap imgPtrOpt) := by
  have h := c4_release_front twoImgStore 1 (by decide)
  exact ⟨h.1, h.2.1, h.2.2.1, h.2.2.2.1⟩

/-- Claim C5: `add_to_offline_buffer` with offline buffering enabled appends
exactly `min(count, space)` entries in order at the tail, leaves the
pre-existing buffer contents untouched (drop-newest), and reports that
number; with offline buffering disabled it is a no-op returning
`ESP_ERR_NOT_SUPPORTED`. -/
theorem c5_offline_admit (cfg : UploaderConfig)
    (offline : List FaceLogEntry) (status : UploaderStatus)
    (logs : List FaceLogEntry) (count : Nat)
    (hcap : offline.length ≤ cfg.offline_buffer_size)
    (hlen : count ≤ logs.length) :
    (cfg.enable_offline_buffering = true →
        (add_to_offline_buffer cfg offline status logs count).2.2.2
          = min count (cfg.offline_buffer_size - offline.length) ∧
        (add_to_offline_buffer cfg offline status logs count).1
          = offline ++ logs.take
              (add_to_offline_buffer cfg offline status logs count).2.2.2 ∧
        (add_to_offline_buffer cfg offline status logs count).1.take
            offline.length = offline ∧
        (add_to_offline_buffer cfg offline status logs count).1.length
          = offline.length
            + (add_to_offline_buffer cfg offline status logs count).2.2.2) ∧
    (cfg.enable_offline_buffering = false →
        add_to_offline_buffer cfg offline status logs count
          = (offline, status, EspErr.errNotSupported, 0)) := by
  constructor
  · intro hen
    set space := cfg.offline_buffer_size - offline.length with hspace
    set toAdd := if space < count then space else count with htoAdd
    have hmin : toAdd = min count space := by
      rw [htoAdd]
      split <;> omega
    have hres : add_to_offline_buffer cfg offline status logs count
        = if 0 < toAdd then
            (offline ++ logs.take toAdd,
             { status with offline_buffer_count := (offline ++ logs.take toAdd).length },
             EspErr.espOk, toAdd)
          else (offline, status, EspErr.errNoMem, toAdd) := by
      unfold add_to_offline_buffer
      rw [hen]
      rfl
    rw [hres]
    by_cases hpos : 0 < toAdd
    · rw [if_pos hpos]
      have htl : (logs.take toAdd).length = toAdd := by
        rw [List.length_take]
        omega
      refine ⟨hmin, rfl, ?_, ?_⟩
      · rw [List.take_left]
      · rw [List.length_append, htl]
    · rw [if_neg hpos]
      have h0 : toAdd = 0 := by omega
      refine ⟨hmin, ?_, ?_, ?_⟩
      · rw [h0, List.take_zero, List.append_nil]
      · rw [List.take_length]
      · show offline.length = offline.length + toAdd
        omega
  · intro hdis
    unfold add_to_offline_buffer
    rw [hdis]
    rfl

/-- Claim C5 witness: admitting 2 entries into an enabled buffer holding one
entry with capacity 50, and the disabled no-op. -/
theorem c5_witness :
    (add_to_offline_buffer cfgC [entryA] initialStatus [entryB, entryP] 2).2.2.2
      = min 2 (cfgC.offline_buffer_size - 1) ∧
    (add_to_offline_buffer cfgC [entryA] initialStatus [entryB, entryP] 2).1
      = [entryA] ++ [entryB, entryP].take
          (add_to_offline_buffer cfgC [entryA] initialStatus [entryB, entryP] 2).2.2.2 ∧
    add_to_offline_buffer cfgDis [entryA] initialStatus [entryB, entryP] 2
      = ([entryA], initialStatus, EspErr.errNotSupported, 0) := by
  have h1 := c5_offline_admit cfgC [entryA] initialStatus [entryB, entryP] 2
    (by decide) (by decide)
  have h2 := c5_offline_admit cfgDis [entryA] initialStatus [entryB, entryP] 2
    (by decide) (by decide)
  exact ⟨(h1.1 rfl).1, (h1.1 rfl).2.1, h2.2 rfl⟩

/-- Claim C3: an event carrying the unsynced placeholder timestamp is
repaired at serialization time exactly when the wall clock is synchronized
(strictly past the 2024-01-01 threshold 1704067200): the transmitted
timestamp becomes `now_wall - (now_monotonic - captured_at_monotonic)`
truncated to whole seconds, formatted as ISO-8601 UTC with a trailing `Z`;
otherwise the stored timestamp is transmitted unchanged.  Concretely, with
`captured_at_monotonic = 100,000,000 µs` and `now_monotonic = 150,000,000 µs`
the repaired timestamp is `now_wall - 50 s`. -/
theorem c3_timestamp_repair (now_sec now_uptime : Int) (e : FaceLogEntry)
    (hp : e.timestamp = unsyncedPlaceholder) :
    (1704067200 < now_sec →
        (repairEntry now_sec now_uptime e).timestamp
          = formatTimestampUTC
              (now_sec - (now_uptime - (e.uptime_us : Int)).tdiv 1000000)) ∧
    (¬ 1704067200 < now_sec → repairEntry now_sec now_uptime e = e) ∧
    (1704067200 < now_sec →
        ∃ s, (repairEntry now_sec now_uptime e).timestamp = s ++ "Z") ∧
    (1704067200 < now_sec → e.uptime_us = 100000000 → now_uptime = 150000000 →
        (repairEntry now_sec now_uptime e).timestamp
          = formatTimestampUTC (now_sec - 50)) := by
  have hneeds : timestampNeedsRepair e.timestamp = true := by
    rw [hp]
    decide
  have hrep : 1704067200 < now_sec →
      (repairEntry now_sec now_uptime e).timestamp
        = formatTimestampUTC
            (now_sec - (now_uptime - (e.uptime_us : Int)).tdiv 1000000) := by
    intro h
    have hs : system_time_synced now_sec = true := by
      unfold system_time_synced
      exact decide_eq_true h
    unfold repairEntry
    rw [hs, hneeds]
    rfl
  refine ⟨hrep, ?_, ?_, ?_⟩
  · intro h
    have hs : system_time_synced now_sec = false := by
      unfold system_time_synced
      exact decide_eq_false h
    unfold repairEntry
    rw [hs]
    rfl
  · intro h
    exact ⟨isoCore (now_sec - (now_uptime - (e.uptime_us : Int)).tdiv 1000000),
      hrep h⟩
  · intro h h1 h2
    rw [hrep h, h1, h2]
    norm_num
    have h50 : Int.tdiv 50000000 1000000 = 50 := by decide
    rw [h50]

/-- Claim C3 witness: the placeholder entry captured at uptime 100,000,000 µs,
serialized at uptime 150,000,000 µs with the wall clock at 1735689600 s,
repairs to `T - 50 s = 2024-12-31T23:59:10Z`. -/
theorem c3_witness :
    (repairEntry 1735689600 150000000 entryP).timestamp
      = formatTimestampUTC (1735689600 - 50) ∧
    formatTimestampUTC (1735689600 - 50) = "2024-12-31T23:59:10Z" :=
  ⟨(c3_timestamp_repair 1735689600 150000000 entryP rfl).2.2.2
      (by norm_num) rfl rfl,
   by decide⟩

/-- Claim C6 (counterexample): a failed flush does not leave every buffered
entry unchanged — the serializer's time-repair pass mutates the offline
buffer in place, so a buffered placeholder entry comes out of a *failed*
flush with a rewritten timestamp. -/
theorem c6_counterexample :
    (upload_offline_buffer cfgC envSync [entryP] initialStatus).2.2.1 = false ∧
    (upload_offline_buffer cfgC envSync [entryP] initialStatus).1.length = 1 ∧
    (upload_offline_buffer cfgC envSync [entryP] initialStatus).1.map
        (fun e => e.timestamp) = ["2024-12-31T23:59:10Z"] ∧
    entryP.timestamp = "1970-01-01T00:00:00Z" := by
  refine ⟨rfl, rfl, by decide, rfl⟩

/-- Claim C6 (amended): with offline buffering enabled, the flush attempt
succeeds trivially without invoking delivery when the buffer is empty;
otherwise it invokes delivery exactly once on the entire buffer contents
(after the serializer's in-place timestamp repair) as one batch, and
afterwards the buffer is empty if and only if that delivery succeeded — on
failure the occupancy and the buffered events are retained, though entries
with placeholder timestamps may have had their timestamps repaired in
place. -/
theorem c6_flush_all_or_nothing (cfg : UploaderConfig) (env : AttemptEnv)
    (offline : List FaceLogEntry) (status : UploaderStatus)
    (hen : cfg.enable_offline_buffering = true) :
    (offline = [] →
        upload_offline_buffer cfg env offline status
          = (offline, status, true, [])) ∧
    (offline ≠ [] →
        (upload_offline_buffer cfg env offline status).2.2.2
          = [repairBatch env offline] ∧
        ((upload_offline_buffer cfg env offline status).1 = []
          ↔ env.outcome.isOk = true) ∧
        (env.outcome.isOk = false →
            (upload_offline_buffer cfg env offline status).1
              = repairBatch env offline ∧
            (upload_offline_buffer cfg env offline status).1.length
              = offline.length)) := by
  constructor
  · intro hempty
    unfold upload_offline_buffer
    rw [hen, hempty]
    rfl
  · intro hne
    have hlen : offline.length ≠ 0 := by
      intro h
      exact hne (List.length_eq_zero.mp h)
    have hrblen : (repairBatch env offline).length = offline.length := by
      unfold repairBatch
      rw [List.length_map]
    have hrbne : repairBatch env offline ≠ [] := by
      intro h
      have hl := congrArg List.length h
      rw [hrblen] at hl
      exact hlen hl
    have hcond : ¬((!cfg.enable_offline_buffering
        || decide (offline.length = 0)) = true) := by
      simp [hen, hlen]
    have hup : upload_logs_to_server env offline status
        = (repairBatch env offline,
           match env.outcome with
           | .ok now_us =>
               update_status_success status (repairBatch env offline).length now_us
           | .failRecorded msg => update_status_error status msg
           | .failSilent => status,
           env.outcome.isOk) := by
      unfold upload_logs_to_server
      rw [if_neg hlen]
      cases env.outcome <;> rfl
    cases ho : env.outcome with
    | ok now_us =>
      rw [ho] at hup
      have hbuf : upload_offline_buffer cfg env offline status
          = ([], { (update_status_success status
                      (repairBatch env offline).length now_us) with
                   offline_buffer_count := 0 },
             true, [repairBatch env offline]) := by
        unfold upload_offline_buffer
        rw [if_neg hcond, hup]
        rfl
      rw [hbuf]
      refine ⟨rfl, by simp [AttemptOutcome.isOk], ?_⟩
      intro hf
      exact absurd hf (by simp [AttemptOutcome.isOk])
    | failRecorded msg =>
      rw [ho] at hup
      have hbuf : upload_offline_buffer cfg env offline status
          = (repairBatch env offline, update_status_error status msg,
             false, [repairBatch env offline]) := by
        unfold upload_offline_buffer
        rw [if_neg hcond, hup]
        rfl
      rw [hbuf]
      refine ⟨rfl, ?_, fun _ => ⟨rfl, hrblen⟩⟩
      constructor
      · intro hnil
        exact absurd hnil hrbne
      · intro hc
        exact absurd hc (by simp [AttemptOutcome.isOk])
    | failSilent =>
      rw [ho] at hup
      have hbuf : upload_offline_buffer cfg env offline status
          = (repairBatch env offline, status,
             false, [repairBatch env offline]) := by
        unfold upload_offline_buffer
        rw [if_neg hcond, hup]
        rfl
      rw [hbuf]
      refine ⟨rfl, ?_, fun _ => ⟨rfl, hrblen⟩⟩
      constructor
      · intro hnil
        exact absurd hnil hrbne
      · intro hc
        exact absurd hc (by simp [AttemptOutcome.isOk])

/-- Claim C6 witness: the empty-buffer trivial success and the
exactly-one-batch delivery on a nonempty buffer, at concrete inputs. -/
theorem c6_witness :
    upload_offline_buffer cfgC envSync ([] : List FaceLogEntry) initialStatus
      = ([], initialStatus, true, []) ∧
    (upload_offline_buffer cfgC envFail [entryA] initialStatus).2.2.2
      = [repairBatch envFail [entryA]] := by
  have h1 := (c6_flush_all_or_nothing cfgC envSync [] initialStatus rfl).1 rfl
  have h2 := ((c6_flush_all_or_nothing cfgC envFail [entryA] initialStatus rfl).2
    (List.cons_ne_nil _ _)).1
  exact ⟨h1, h2⟩

/-- The repair passes preserve the batch length. -/
theorem foldRepair_length (envs : List AttemptEnv) (batch : List FaceLogEntry) :
    (foldRepair envs batch).length = batch.length := by
  induction envs generalizing batch with
  | nil => rfl
  | cons env rest ih =>
    show (foldRepair rest (repairBatch env batch)).length = batch.length
    rw [ih]
    unfold repairBatch
    rw [List.length_map]

/-- When every one of the `envs.length` remaining attempts fails, the retry
loop runs them all, accumulating the in-place repairs on the local batch and
the per-attempt status recordings, and ends in the retry-exhaustion block. -/
theorem runAttempts_exhaust (cfg : UploaderConfig) (envs : List AttemptEnv) :
    ∀ (batch : List FaceLogEntry) (st : SysState),
      batch ≠ [] → envs ≠ [] →
      (∀ e ∈ envs, e.outcome.isOk = false) →
      runAttempts cfg envs.length envs batch st
        = finalFailure cfg (foldRepair envs batch)
            { st with status := foldFailStatus envs st.status } := by
  induction envs with
  | nil =>
    intro batch st _ hne _
    exact absurd rfl hne
  | cons env rest ih =>
    intro batch st hb _ hall
    have hblen : batch.length ≠ 0 := fun h => hb (List.length_eq_zero.mp h)
    have hok : env.outcome.isOk = false := hall env (List.mem_cons_self _ _)
    have hup : upload_logs_to_server env batch st.status
        = (repairBatch env batch, stepFailStatus env st.status, false) := by
      unfold upload_logs_to_server
      rw [if_neg hblen]
      cases hoc : env.outcome with
      | ok n =>
        rw [hoc] at hok
        simp [AttemptOutcome.isOk] at hok
      | failRecorded m => simp [stepFailStatus, hoc]
      | failSilent => simp [stepFailStatus, hoc]
    have hrb : repairBatch env batch ≠ [] := by
      intro h
      have hl := congrArg List.length h
      unfold repairBatch at hl
      rw [List.length_map] at hl
      exact hblen hl
    have h1 : runAttempts cfg (rest.length + 1) (env :: rest) batch st
        = if rest.length = 0 then
            finalFailure cfg (repairBatch env batch)
              { st with status := stepFailStatus env st.status }
          else
            runAttempts cfg rest.length rest (repairBatch env batch)
              { st with status := stepFailStatus env st.status } := by
      conv_lhs => rw [runAttempts, hup]
      rfl
    show runAttempts cfg (rest.length + 1) (env :: rest) batch st = _
    rw [h1]
    by_cases hrest : rest = []
    · subst hrest
      rw [if_pos List.length_nil]
      rfl
    · have hrl : rest.length ≠ 0 := fun h => hrest (List.length_eq_zero.mp h)
      rw [if_neg hrl]
      rw [ih (repairBatch env batch)
        { st with status := stepFailStatus env st.status } hrb hrest
        (fun e he => hall e (List.mem_cons_of_mem _ he))]
      rfl

/-- `update_status_error` stores the (truncated) message in `last_error`. -/
theorem update_status_error_last (s : UploaderStatus) (m : String) :
    (update_status_error s m).last_error = m.take 127 := by
  unfold update_status_error
  with_reducible rfl

/-- Admitting a batch into an empty enabled offline buffer yields the first
`min (batch length) capacity` entries of the batch. -/
theorem add_to_offline_empty (cfg : UploaderConfig) (S : UploaderStatus)
    (B : List FaceLogEntry) (hen : cfg.enable_offline_buffering = true) :
    (add_to_offline_buffer cfg [] S B B.length).1
      = B.take (min B.length cfg.offline_buffer_size) := by
  simp only [add_to_offline_buffer, hen, Bool.not_true, Bool.false_eq_true,
    if_false, List.length_nil, Nat.sub_zero, List.nil_append]
  rw [show (if cfg.offline_buffer_size < B.length then cfg.offline_buffer_size
      else B.length) = min B.length cfg.offline_buffer_size by split <;> omega]
  split
  · rfl
  · next hneg =>
    have h0 : min B.length cfg.offline_buffer_size = 0 := by omega
    rw [h0, List.take_zero]

/-- Claim C1 (counterexample): with offline buffering disabled, a cycle whose
primary upload fails on every attempt leaves the snapshotted entries in the
log store — `csv_logger_mark_uploaded` is only called inside the
`enable_offline_buffering` branch (csv_uploader.c lines 398-401), so the
entries are not removed "in all cases". -/
theorem c1_counterexample :
    cfgDis.enable_offline_buffering = false ∧
    [envFail, envFail, envFail].length = cfgDis.max_retries ∧
    (∀ e ∈ [envFail, envFail, envFail], e.outcome.isOk = false) ∧
    stD.logStore ≠ [] ∧
    (upload_task_cycle cfgDis envFail [envFail, envFail, envFail] stD).logStore
      = stD.logStore ∧
    (upload_task_cycle cfgDis envFail [envFail, envFail, envFail]
        stD).logStore.length = 1 := by
  refine ⟨rfl, rfl, ?_, ?_, rfl, rfl⟩
  · intro e he
    simp only [List.mem_cons, List.not_mem_nil, or_false] at he
    rcases he with h | h | h <;> rw [h] <;> rfl
  · intro h
    exact List.cons_ne_nil entryA [] h

/-- Claim C1 (amended): when every primary-delivery attempt of a cycle fails,
then with offline buffering enabled the (repaired) snapshot batch is admitted
to the Offline Buffer and the snapshotted entries are removed from the Log
Store via `release_front(n)`; with offline buffering disabled the entries
remain in the Log Store for a later cycle; in all cases a failure is
recorded in the Status Register (`last_error` set to the final message,
`consecutive_failures` positive). -/
theorem c1_retry_exhaustion (cfg : UploaderConfig) (oenv : AttemptEnv)
    (envs : List AttemptEnv) (st : SysState)
    (h1 : st.logStore ≠ []) (h2 : st.offline = [])
    (h3 : envs.length = cfg.max_retries) (h4 : 0 < cfg.max_retries)
    (h5 : ∀ e ∈ envs, e.outcome.isOk = false) :
    (cfg.enable_offline_buffering = true →
        (upload_task_cycle cfg oenv envs st).logStore
          = st.logStore.drop (min st.logStore.length 5) ∧
        (upload_task_cycle cfg oenv envs st).offline
          = (foldRepair envs
              (st.logStore.take (min st.logStore.length 5))).take
              (min (min st.logStore.length 5) cfg.offline_buffer_size)) ∧
    (cfg.enable_offline_buffering = false →
        (upload_task_cycle cfg oenv envs st).logStore = st.logStore ∧
        (upload_task_cycle cfg oenv envs st).offline = []) ∧
    (upload_task_cycle cfg oenv envs st).status.last_error
      = ("Upload failed after " ++ toString cfg.max_retries
          ++ " retries").take 127 ∧
    0 < (upload_task_cycle cfg oenv envs st).status.consecutive_failures := by
  have hlen : st.logStore.length ≠ 0 := fun h => h1 (List.length_eq_zero.mp h)
  have henvs : envs ≠ [] := by
    intro h
    rw [h] at h3
    simp only [List.length_nil] at h3
    omega
  have hn : (if st.logStore.length < 5 then st.logStore.length else 5)
      = min st.logStore.length 5 := by
    split <;> omega
  have hn0 : min st.logStore.length 5 ≠ 0 := by omega
  have hbatchlen : (st.logStore.take (min st.logStore.length 5)).length
      = min st.logStore.length 5 := by
    rw [List.length_take]
    omega
  have hbne : st.logStore.take (min st.logStore.length 5) ≠ [] := by
    intro h
    have hl := congrArg List.length h
    rw [hbatchlen] at hl
    exact hn0 hl
  have hr22 : (csv_logger_read_pending_logs st.logStore 5).2.2
      = min st.logStore.length 5 := by
    show (if st.logStore.length < 5 then st.logStore.length else 5) = _
    exact hn
  have hr21 : (csv_logger_read_pending_logs st.logStore 5).2.1
      = st.logStore.take (min st.logStore.length 5) := by
    show st.logStore.take
        (if st.logStore.length < 5 then st.logStore.length else 5) = _
    rw [hn]
  have hflush : upload_offline_buffer cfg oenv st.offline st.status
      = (st.offline, st.status, true, []) := by
    unfold upload_offline_buffer
    rw [h2]
    rw [if_pos (by simp)]
  have hcycle : upload_task_cycle cfg oenv envs st
      = runAttempts cfg cfg.max_retries envs
          (st.logStore.take (min st.logStore.length 5)) st := by
    show (if st.logStore.length = 0 then st
          else
            let r := csv_logger_read_pending_logs st.logStore 5
            let batch := r.2.1
            if r.2.2 = 0 then st
            else
              let f := upload_offline_buffer cfg oenv st.offline st.status
              runAttempts cfg cfg.max_retries envs batch
                { st with offline := f.1, status := f.2.1 }) = _
    rw [if_neg hlen]
    show (if (csv_logger_read_pending_logs st.logStore 5).2.2 = 0 then st
          else
            let f := upload_offline_buffer cfg oenv st.offline st.status
            runAttempts cfg cfg.max_retries envs
              (csv_logger_read_pending_logs st.logStore 5).2.1
              { st with offline := f.1, status := f.2.1 }) = _
    rw [hr22, if_neg hn0, hr21, hflush]
  have hrun : runAttempts cfg cfg.max_retries envs
      (st.logStore.take (min st.logStore.length 5)) st
      = finalFailure cfg
          (foldRepair envs (st.logStore.take (min st.logStore.length 5)))
          { st with status := foldFailStatus envs st.status } := by
    rw [← h3]
    exact runAttempts_exhaust cfg envs _ st hbne henvs h5
  have hBlen : (foldRepair envs
      (st.logStore.take (min st.logStore.length 5))).length
      = min st.logStore.length 5 := by
    rw [foldRepair_length, hbatchlen]
  rw [hcycle, hrun]
  by_cases henb : cfg.enable_offline_buffering = true
  · have hff : finalFailure cfg
        (foldRepair envs (st.logStore.take (min st.logStore.length 5)))
        { st with status := foldFailStatus envs st.status }
        = { logStore := (csv_logger_mark_uploaded st.logStore
              (foldRepair envs
                (st.logStore.take (min st.logStore.length 5))).length).1,
            offline := (add_to_offline_buffer cfg []
              (foldFailStatus envs st.status)
              (foldRepair envs (st.logStore.take (min st.logStore.length 5)))
              (foldRepair envs
                (st.logStore.take (min st.logStore.length 5))).length).1,
            status := update_status_error
              ((add_to_offline_buffer cfg []
                (foldFailStatus envs st.status)
                (foldRepair envs (st.logStore.take (min st.logStore.length 5)))
                (foldRepair envs
                  (st.logStore.take (min st.logStore.length 5))).length).2.1)
              ("Upload failed after " ++ toString cfg.max_retries
                ++ " retries") } := by
      unfold finalFailure
      rw [if_pos henb, h2]
    rw [hff]
    refine ⟨fun _ => ⟨?_, ?_⟩, fun hdis => ?_, ?_, ?_⟩
    · show (csv_logger_mark_uploaded st.logStore _).1 = _
      rw [mark_uploaded_fst, hBlen]
    · show (add_to_offline_buffer cfg [] _ _ _).1 = _
      rw [add_to_offline_empty cfg _ _ henb, hBlen]
    · rw [hdis] at henb
      exact absurd henb Bool.false_ne_true
    · exact update_status_error_last _ _
    · exact Nat.succ_pos _
  · have hdis : cfg.enable_offline_buffering = false := by
      cases h : cfg.enable_offline_buffering
      · rfl
      · exact absurd h henb
    have hff : finalFailure cfg
        (foldRepair envs (st.logStore.take (min st.logStore.length 5)))
        { st with status := foldFailStatus envs st.status }
        = { logStore := st.logStore, offline := st.offline,
            status := update_status_error (foldFailStatus envs st.status)
              ("Upload failed after " ++ toString cfg.max_retries
                ++ " retries") } := by
      unfold finalFailure
      rw [if_neg (by rw [hdis]; exact Bool.false_ne_true)]
    rw [hff]
    exact ⟨fun hen => absurd hen henb, fun _ => ⟨rfl, h2⟩,
      update_status_error_last _ _, Nat.succ_pos _⟩

/-- Claim C1 witness: a concrete all-attempts-fail cycle with offline
buffering enabled (capacity 50, `max_retries = 3`, one pending entry). -/
theorem c1_witness :
    (upload_task_cycle cfgC envFail [envFail, envFail, envFail] stD).logStore
      = stD.logStore.drop (min stD.logStore.length 5) ∧
    (upload_task_cycle cfgC envFail [envFail, envFail, envFail] stD).offline
      = (foldRepair [envFail, envFail, envFail]
          (stD.logStore.take (min stD.logStore.length 5))).take
          (min (min stD.logStore.length 5) cfgC.offline_buffer_size) ∧
    0 < (upload_task_cycle cfgC envFail [envFail, envFail, envFail]
        stD).status.consecutive_failures := by
  have h := c1_retry_exhaustion cfgC envFail [envFail, envFail, envFail] stD
    (fun hc => List.cons_ne_nil entryA [] hc) rfl rfl (by decide)
    (by
      intro e he
      simp only [List.mem_cons, List.not_mem_nil, or_false] at he
      rcases he with h | h | h <;> rw [h] <;> rfl)
  exact ⟨(h.1 rfl).1, (h.1 rfl).2, h.2.2.2⟩

/-- Claim C9 (counterexample): in the Scenario-C run (3 attempts, each a
recorded server-error failure, offline buffering enabled, capacity 50) the
Status Register ends with `consecutive_failures = 4`, not 3: each of the 3
failed attempts records a failure inside `upload_logs_to_server`, and the
retry-exhaustion block of `upload_task` records a fourth. -/
theorem c9_counterexample :
    (upload_task_cycle cfgC envFail [envFail, envFail, envFail]
        stC).status.consecutive_failures ≠ 3 ∧
    (upload_task_cycle cfgC envFail [envFail, envFail, envFail]
        stC).offline = stC.logStore ∧
    (upload_task_cycle cfgC envFail [envFail, envFail, envFail]
        stC).logStore = [] := by
  refine ⟨by decide, ?_, rfl⟩
  rfl

set_option maxRecDepth 100000 in
/-- Claim C9 (amended): with `max_retries = 3` and offline buffering enabled
with capacity 50, a cycle in which delivery fails on all 3 attempts — each
failure recorded by the transport layer — ends with the snapshot's events
moved to the Offline Buffer, the Log Store cleared of them,
`consecutive_failures = 4` (3 per-attempt records plus the final
cycle-failure record) and `failed_uploads = 4`, and `last_error` set to the
non-empty message `"Upload failed after 3 retries"`. -/
theorem c9_scenario_exhausted_retries :
    (upload_task_cycle cfgC envFail [envFail, envFail, envFail]
        stC).offline = stC.logStore ∧
    (upload_task_cycle cfgC envFail [envFail, envFail, envFail]
        stC).logStore = [] ∧
    (upload_task_cycle cfgC envFail [envFail, envFail, envFail]
        stC).status.consecutive_failures = 4 ∧
    (upload_task_cycle cfgC envFail [envFail, envFail, envFail]
        stC).status.failed_uploads = 4 ∧
    (upload_task_cycle cfgC envFail [envFail, envFail, envFail]
        stC).status.last_error = "Upload failed after 3 retries" := by
  refine ⟨?_, rfl, by decide, by decide, by decide⟩
  rfl
